import Mathlib

/-!
# LPC1768 SPI transport (`Marlin/src/HAL/LPC1768/HAL_SPI.cpp`)

A shallow embedding of the software SPI wrappers, the procedural hardware SPI
driver and `SPIClass`.

The driver talks to the platform only through library calls (`SSP_*`,
`GPDMA_*`, `CLKPWR_*`, `swSpi*`).  Every such call is recorded, in program
order, in a history `List Call`.  The platform's answer to a call that returns
a value is given by an environment `Env`, a function of the history up to and
including that call; since the history only grows, every possible run of the
hardware is described by some environment.

Busy-wait loops poll the environment; each of them is given a poll budget `wf`
and stops with `Halt.stall` when the budget is used up.  Counted loops whose
counter can wrap are given fuel and stop with `Halt.fuel` when it is used up.
-/

namespace HAL_SPI

/-! ## Platform types and constants -/

/-- The two SSP peripherals, `LPC_SSP0` and `LPC_SSP1`. -/
inductive LPC_SSP_TypeDef
  | LPC_SSP0
  | LPC_SSP1
  deriving DecidableEq

/-- Clock phase constants `SSP_CPHA_FIRST` / `SSP_CPHA_SECOND`. -/
inductive SSP_CPHA
  | SSP_CPHA_FIRST
  | SSP_CPHA_SECOND
  deriving DecidableEq

/-- Clock polarity constants `SSP_CPOL_HI` / `SSP_CPOL_LO`. -/
inductive SSP_CPOL
  | SSP_CPOL_HI
  | SSP_CPOL_LO
  deriving DecidableEq

/-- The SSP initialisation record `SSP_CFG_Type`. -/
structure SSP_CFG_Type where
  Databit : Nat
  CPHA : SSP_CPHA
  CPOL : SSP_CPOL
  Mode : Nat
  FrameFormat : Nat
  ClockRate : Nat
  deriving DecidableEq

/-- The values `ENABLE` / `DISABLE`. -/
inductive FunctionalState
  | DISABLE
  | ENABLE
  deriving DecidableEq

/-- The SSP status flags polled by the driver. -/
inductive SSP_STAT
  | SSP_STAT_TXFIFO_EMPTY
  | SSP_STAT_BUSY
  deriving DecidableEq

/-- The DMA interrupt status kinds polled by the driver. -/
inductive GPDMA_STAT
  | GPDMA_STAT_INTTC
  | GPDMA_STAT_INTERR
  deriving DecidableEq

/-- The DMA interrupt flags cleared by the driver. -/
inductive GPDMA_STATCLR
  | GPDMA_STATCLR_INTTC
  | GPDMA_STATCLR_INTERR
  deriving DecidableEq

/-- Transfer widths `GPDMA_WIDTH_BYTE` / `GPDMA_WIDTH_HALFWORD`. -/
inductive GPDMA_WIDTH
  | GPDMA_WIDTH_BYTE
  | GPDMA_WIDTH_HALFWORD
  deriving DecidableEq

/-- The DMA request connections used for the two SSP transmitters. -/
inductive GPDMA_CONN
  | GPDMA_CONN_SSP0_Tx
  | GPDMA_CONN_SSP1_Tx
  deriving DecidableEq

/-- The peripheral clock selectors `CLKPWR_PCLKSEL_SSP0` / `CLKPWR_PCLKSEL_SSP1`. -/
inductive CLKPWR_PCLKSEL
  | CLKPWR_PCLKSEL_SSP0
  | CLKPWR_PCLKSEL_SSP1
  deriving DecidableEq

/-- The DMA channel record `GPDMA_Channel_CFG_Type`; `TransferType` is always
`GPDMA_TRANSFERTYPE_M2P` in this driver and is kept as the flag `TransferTypeM2P`. -/
structure GPDMA_Channel_CFG_Type where
  ChannelNum : Nat
  TransferSize : Nat
  TransferWidth : GPDMA_WIDTH
  SrcMemAddr : Nat
  DstMemAddr : Nat
  TransferTypeM2P : Bool
  SrcConn : Nat
  DstConn : GPDMA_CONN
  DMALLI : Nat
  deriving DecidableEq

/-- What the build and the vendor library fix and the source file does not show:
the record `SSP_ConfigStructInit` fills in, the bit `SSP_CR1_SSP_EN`, the value
`DATA_SIZE_16BIT`, the pins and the SSP instance `LPC_SSPn` of the procedural
driver. -/
structure Platform where
  SSP_ConfigStructInit : SSP_CFG_Type
  SSP_CR1_SSP_EN : Nat
  DATA_SIZE_16BIT : Nat
  SCK_PIN : Nat
  MISO_PIN : Nat
  MOSI_PIN : Nat
  LPC_SSPn : LPC_SSP_TypeDef

/-- Modelled from the spec: the data mode identifier `SPI_MODE0` (the header
defining it is not part of the source); the four standard identifiers are 0 to 3. -/
def SPI_MODE0 : Nat := 0

/-- Modelled from the spec: the data mode identifier `SPI_MODE1`. -/
def SPI_MODE1 : Nat := 1

/-- Modelled from the spec: the data mode identifier `SPI_MODE2`. -/
def SPI_MODE2 : Nat := 2

/-- Modelled from the spec: the data mode identifier `SPI_MODE3`. -/
def SPI_MODE3 : Nat := 3

/-- Modelled from the spec: `_MIN(a, b)`, the smaller of its two arguments
(the macro header is not part of the source). -/
def _MIN (a b : Nat) : Nat := if a < b then a else b

/-! ## Calls into the platform, histories and environments -/

/-- One call of a platform routine, with its arguments. -/
inductive Call
  | SSP_SendData (spi : LPC_SSP_TypeDef) (data : Nat)
  | SSP_ReceiveData (spi : LPC_SSP_TypeDef)
  | SSP_GetStatus (spi : LPC_SSP_TypeDef) (flag : SSP_STAT)
  | SSP_Init (spi : LPC_SSP_TypeDef) (cfg : SSP_CFG_Type)
  | SSP_Cmd (spi : LPC_SSP_TypeDef) (st : FunctionalState)
  | SSP_DMACmd_TX (spi : LPC_SSP_TypeDef) (st : FunctionalState)
  | GPDMA_Setup (cfg : GPDMA_Channel_CFG_Type)
  | GPDMA_ChannelCmd (ch : Nat) (st : FunctionalState)
  | GPDMA_IntGetStatus (kind : GPDMA_STAT) (ch : Nat)
  | GPDMA_ClearIntPending (kind : GPDMA_STATCLR) (ch : Nat)
  | CLKPWR_SetPCLKDiv_CCLK_DIV_2 (clk : CLKPWR_PCLKSEL)
  | swSpiTransfer (b speed sck miso mosi : Nat)
  deriving DecidableEq

/-- The platform's answers: the value returned by the last call of a history. -/
abbrev Env := List Call → Nat

/-- Why a run of the model stops without returning. -/
inductive Halt
  | stall
  | fuel
  deriving DecidableEq

/-- A status poll: a call that only reads a flag. -/
def Call.isPoll : Call → Bool
  | .SSP_GetStatus _ _ => true
  | .GPDMA_IntGetStatus _ _ => true
  | _ => false

/-- The history without its status polls. -/
def driven (h : List Call) : List Call := h.filter (fun c => !c.isPoll)

/-- The data words handed to `SSP_SendData`, in order. -/
def sentData (h : List Call) : List Nat :=
  h.filterMap (fun c => match c with
    | .SSP_SendData _ d => some d
    | _ => none)

/-- The bytes handed to `swSpiTransfer`, in order. -/
def swSent (h : List Call) : List Nat :=
  h.filterMap (fun c => match c with
    | .swSpiTransfer b _ _ _ _ => some b
    | _ => none)

/-- The channel records handed to `GPDMA_Setup`, in order. -/
def dmaSetups (h : List Call) : List GPDMA_Channel_CFG_Type :=
  h.filterMap (fun c => match c with
    | .GPDMA_Setup cfg => some cfg
    | _ => none)

/-! ## Busy-wait loops -/

/-- The loop `while (SSP_GetStatus(spi, SSP_STAT_BUSY)) ;` (also written
`== SET`): poll until the busy flag reads as reset. -/
def waitNotBusy (env : Env) (spi : LPC_SSP_TypeDef) : Nat → List Call → Except Halt (List Call)
  | 0, _ => .error .stall
  | n + 1, h =>
    let h1 := h ++ [Call.SSP_GetStatus spi .SSP_STAT_BUSY]
    if env h1 ≠ 0 then waitNotBusy env spi n h1 else .ok h1

/-- The loop `while (SSP_GetStatus(spi, SSP_STAT_TXFIFO_EMPTY) == RESET) ;`. -/
def waitTxEmpty (env : Env) (spi : LPC_SSP_TypeDef) : Nat → List Call → Except Halt (List Call)
  | 0, _ => .error .stall
  | n + 1, h =>
    let h1 := h ++ [Call.SSP_GetStatus spi .SSP_STAT_TXFIFO_EMPTY]
    if env h1 = 0 then waitTxEmpty env spi n h1 else .ok h1

/-- The routine `waitSpiTxEnd`: wait until TXE is set, then until BSY is reset. -/
def waitSpiTxEnd (env : Env) (wf : Nat) (spi_d : LPC_SSP_TypeDef) (h : List Call) :
    Except Halt (List Call) :=
  match waitTxEmpty env spi_d wf h with
  | .error e => .error e
  | .ok h1 => waitNotBusy env spi_d wf h1

/-- The loop
`while (!GPDMA_IntGetStatus(GPDMA_STAT_INTTC, 0) && !GPDMA_IntGetStatus(GPDMA_STAT_INTERR, 0)) ;`
with the short-circuit of `&&`. -/
def waitDma (env : Env) : Nat → List Call → Except Halt (List Call)
  | 0, _ => .error .stall
  | n + 1, h =>
    let h1 := h ++ [Call.GPDMA_IntGetStatus .GPDMA_STAT_INTTC 0]
    if env h1 ≠ 0 then .ok h1
    else
      let h2 := h1 ++ [Call.GPDMA_IntGetStatus .GPDMA_STAT_INTERR 0]
      if env h2 ≠ 0 then .ok h2 else waitDma env n h2

/-- The hardware answers every busy-wait of the driver within `wf` polls. -/
structure Responsive (env : Env) (wf : Nat) : Prop where
  busy : ∀ spi h, ∃ h1, waitNotBusy env spi wf h = .ok h1
  txEmpty : ∀ spi h, ∃ h1, waitTxEmpty env spi wf h = .ok h1
  dma : ∀ h, ∃ h1, waitDma env wf h = .ok h1

/-- A loopback platform that is never busy: status flags read as complete at
the first poll and `SSP_ReceiveData` returns the word last handed to
`SSP_SendData`; `swSpiTransfer` returns the byte it was given. -/
def loopbackEnv : Env := fun h =>
  match h.getLast? with
  | some (.SSP_GetStatus _ .SSP_STAT_BUSY) => 0
  | some (.SSP_GetStatus _ .SSP_STAT_TXFIFO_EMPTY) => 1
  | some (.GPDMA_IntGetStatus _ _) => 1
  | some (.SSP_ReceiveData _) => (sentData h).getLast?.getD 0
  | some (.swSpiTransfer b _ _ _ _) => b
  | _ => 0

/-- A platform to evaluate the model on: the vendor library's defaults. -/
def samplePlatform : Platform where
  SSP_ConfigStructInit :=
    { Databit := 7, CPHA := .SSP_CPHA_FIRST, CPOL := .SSP_CPOL_HI, Mode := 0,
      FrameFormat := 0, ClockRate := 1000000 }
  SSP_CR1_SSP_EN := 2
  DATA_SIZE_16BIT := 15
  SCK_PIN := 15
  MISO_PIN := 17
  MOSI_PIN := 18
  LPC_SSPn := .LPC_SSP0

/-! ## Procedural hardware driver -/

/-- The local table `Marlin_speed` of `spiInit`. -/
def Marlin_speed : List Nat :=
  [8333333, 4166667, 2083333, 1000000, 500000, 250000, 125000]

/-- The routine `spiInit` of the hardware variant. -/
def spiInit (P : Platform) (spiRate : Nat) (h : List Call) : List Call :=
  let HW_SPI_init := P.SSP_ConfigStructInit
  let HW_SPI_init := { HW_SPI_init with ClockRate := Marlin_speed.getD (_MIN (spiRate % 256) 6) 0 }
  let HW_SPI_init := { HW_SPI_init with Mode := HW_SPI_init.Mode ||| P.SSP_CR1_SSP_EN }
  h ++ [Call.SSP_Init P.LPC_SSPn HW_SPI_init]

/-- The routine `doio`: send and receive a single byte. -/
def doio (env : Env) (wf : Nat) (P : Platform) (b : Nat) (h : List Call) :
    Except Halt (Nat × List Call) :=
  let h1 := h ++ [Call.SSP_SendData P.LPC_SSPn ((b % 256) &&& 0x00FF)]
  match waitNotBusy env P.LPC_SSPn wf h1 with
  | .error e => .error e
  | .ok h2 =>
    let h3 := h2 ++ [Call.SSP_ReceiveData P.LPC_SSPn]
    .ok (((env h3 % 65536) &&& 0x00FF) % 256, h3)

/-- The routine `spiTransfer` of the hardware variant. -/
def spiTransfer (env : Env) (wf : Nat) (P : Platform) (b : Nat) (h : List Call) :
    Except Halt (Nat × List Call) :=
  doio env wf P (b % 256) h

/-- The loop `for (uint16_t i = ...; i < 512; i++) (void)spiTransfer(buf[i]);`
of the hardware `spiSendBlock`, from the counter value `i`. -/
def spiSendBlock_loop (env : Env) (wf : Nat) (P : Platform) (buf : Nat → Nat) :
    Nat → Nat → List Call → Except Halt (List Call)
  | 0, _, _ => .error .fuel
  | fuel + 1, i, h =>
    if i < 512 then
      match spiTransfer env wf P (buf i) h with
      | .error e => .error e
      | .ok (_, h1) => spiSendBlock_loop env wf P buf fuel ((i + 1) % 65536) h1
    else .ok h

/-- The routine `spiSendBlock` of the hardware variant; `buf i` is the byte `buf[i]`. -/
def spiSendBlock (env : Env) (wf : Nat) (P : Platform) (fuel : Nat) (token : Nat)
    (buf : Nat → Nat) (h : List Call) : Except Halt (List Call) :=
  match spiTransfer env wf P (token % 256) h with
  | .error e => .error e
  | .ok (_, h1) => spiSendBlock_loop env wf P buf fuel 0 h1

/-! ## Software SPI wrappers -/

/-- The routine `spiTransfer` of the software variant: one call of the library's
`swSpiTransfer`, whose result is the platform's answer. -/
def sw_spiTransfer (env : Env) (P : Platform) (SPI_speed : Nat) (b : Nat) (h : List Call) :
    Nat × List Call :=
  let h1 := h ++ [Call.swSpiTransfer (b % 256) SPI_speed P.SCK_PIN P.MISO_PIN P.MOSI_PIN]
  (env h1 % 256, h1)

/-- The loop of the software `spiSendBlock`, from the counter value `i`. -/
def sw_spiSendBlock_loop (env : Env) (P : Platform) (SPI_speed : Nat) (buf : Nat → Nat) :
    Nat → Nat → List Call → Except Halt (List Call)
  | 0, _, _ => .error .fuel
  | fuel + 1, i, h =>
    if i < 512 then
      sw_spiSendBlock_loop env P SPI_speed buf fuel ((i + 1) % 65536)
        (sw_spiTransfer env P SPI_speed (buf i) h).2
    else .ok h

/-- The routine `spiSendBlock` of the software variant. -/
def sw_spiSendBlock (env : Env) (P : Platform) (SPI_speed : Nat) (fuel : Nat) (token : Nat)
    (buf : Nat → Nat) (h : List Call) : Except Halt (List Call) :=
  sw_spiSendBlock_loop env P SPI_speed buf fuel 0
    (sw_spiTransfer env P SPI_speed (token % 256) h).2

/-! ## `SPIClass` -/

/-- One settings record of `SPIClass`. -/
structure SPISettings where
  spi_d : LPC_SSP_TypeDef
  clock : Nat
  bitOrder : Nat
  dataMode : Nat
  dataSize : Nat
  deriving DecidableEq

/-- The object state with two configured units (`BOARD_NR_SPI` is 2): the array
`_settings` and the pointer `_currentSetting`, kept as the index of the record
it points to. -/
structure SPIClass where
  _settings : Fin 2 → SPISettings
  _currentSetting : Fin 2

/-- The record `*_currentSetting`. -/
def SPIClass.cur (self : SPIClass) : SPISettings := self._settings self._currentSetting

/-- Assignment through `_currentSetting`. -/
def SPIClass.setCur (self : SPIClass) (r : SPISettings) : SPIClass :=
  { self with _settings := Function.update self._settings self._currentSetting r }

/-- The method `setModule`: `_currentSetting = &_settings[device - 1]`.  A
device number outside `1 .. BOARD_NR_SPI` makes the pointer leave the array,
which is undefined behaviour and has no result here. -/
def SPIClass.setModule (self : SPIClass) (device : Nat) : Option SPIClass :=
  if hd : 1 ≤ device % 256 ∧ device % 256 ≤ 2 then
    some { self with _currentSetting := ⟨device % 256 - 1, by omega⟩ }
  else none

/-- The method `setClock`. -/
def SPIClass.setClock (self : SPIClass) (clock : Nat) : SPIClass :=
  self.setCur { self.cur with clock := clock % 2 ^ 32 }

/-- The method `setBitOrder`. -/
def SPIClass.setBitOrder (self : SPIClass) (bitOrder : Nat) : SPIClass :=
  self.setCur { self.cur with bitOrder := bitOrder % 256 }

/-- The method `setDataMode`; the source assigns the field `dataSize`. -/
def SPIClass.setDataMode (self : SPIClass) (dataMode : Nat) : SPIClass :=
  self.setCur { self.cur with dataSize := dataMode % 256 }

/-- The method `setDataSize`. -/
def SPIClass.setDataSize (self : SPIClass) (ds : Nat) : SPIClass :=
  self.setCur { self.cur with dataSize := ds % 2 ^ 32 }

/-- A call of one of the four setters, with its argument. -/
inductive Setter
  | setClock (clock : Nat)
  | setBitOrder (bitOrder : Nat)
  | setDataMode (dataMode : Nat)
  | setDataSize (ds : Nat)
  deriving DecidableEq

/-- Perform one setter call. -/
def Setter.run (self : SPIClass) : Setter → SPIClass
  | .setClock c => self.setClock c
  | .setBitOrder b => self.setBitOrder b
  | .setDataMode m => self.setDataMode m
  | .setDataSize d => self.setDataSize d

/-- Perform a sequence of setter calls, first to last. -/
def runSetters (self : SPIClass) (calls : List Setter) : SPIClass :=
  calls.foldl Setter.run self

/-- The method `updateSettings`; it reads the active record and returns the
history extended by its platform calls. -/
def SPIClass.updateSettings (P : Platform) (self : SPIClass) (h : List Call) : List Call :=
  let h1 := h ++ [Call.CLKPWR_SetPCLKDiv_CCLK_DIV_2
    (if self.cur.spi_d = .LPC_SSP0 then .CLKPWR_PCLKSEL_SSP0 else .CLKPWR_PCLKSEL_SSP1)]
  let HW_SPI_init := P.SSP_ConfigStructInit
  let HW_SPI_init := { HW_SPI_init with ClockRate := self.cur.clock }
  let HW_SPI_init := { HW_SPI_init with Databit := self.cur.dataSize }
  let HW_SPI_init :=
    if self.cur.dataMode = SPI_MODE0 then
      { HW_SPI_init with CPHA := .SSP_CPHA_FIRST, CPOL := .SSP_CPOL_HI }
    else if self.cur.dataMode = SPI_MODE1 then
      { HW_SPI_init with CPHA := .SSP_CPHA_SECOND, CPOL := .SSP_CPOL_HI }
    else if self.cur.dataMode = SPI_MODE2 then
      { HW_SPI_init with CPHA := .SSP_CPHA_FIRST, CPOL := .SSP_CPOL_LO }
    else if self.cur.dataMode = SPI_MODE3 then
      { HW_SPI_init with CPHA := .SSP_CPHA_SECOND, CPOL := .SSP_CPOL_LO }
    else HW_SPI_init
  h1 ++ [Call.SSP_Init self.cur.spi_d HW_SPI_init]

/-- The method `begin`. -/
def SPIClass.begin (P : Platform) (self : SPIClass) (h : List Call) : SPIClass × List Call :=
  let h1 := self.updateSettings P h
  (self, h1 ++ [Call.SSP_Cmd self.cur.spi_d .ENABLE])

/-- The argument record of `beginTransaction`, with the three fields it reads. -/
structure TransactionCfg where
  bitOrder : Nat
  dataMode : Nat
  dataSize : Nat
  deriving DecidableEq

/-- The method `beginTransaction`. -/
def SPIClass.beginTransaction (P : Platform) (self : SPIClass) (cfg : TransactionCfg)
    (h : List Call) : SPIClass × List Call :=
  let self := self.setBitOrder cfg.bitOrder
  let self := self.setDataMode cfg.dataMode
  let self := self.setDataSize cfg.dataSize
  self.begin P h

/-- The method `transfer`: it takes a 16-bit word and returns a byte. -/
def SPIClass.transfer (env : Env) (wf : Nat) (self : SPIClass) (b : Nat) (h : List Call) :
    Except Halt (Nat × List Call) :=
  let h1 := h ++ [Call.SSP_ReceiveData self.cur.spi_d]
  let h2 := h1 ++ [Call.SSP_SendData self.cur.spi_d (b % 65536)]
  match waitSpiTxEnd env wf self.cur.spi_d h2 with
  | .error e => .error e
  | .ok h3 =>
    let h4 := h3 ++ [Call.SSP_ReceiveData self.cur.spi_d]
    .ok ((env h4 % 65536) % 256, h4)

/-- The method `transfer16`; the left operand of `|` is evaluated first. -/
def SPIClass.transfer16 (env : Env) (wf : Nat) (self : SPIClass) (data : Nat) (h : List Call) :
    Except Halt (Nat × List Call) :=
  match self.transfer env wf ((((data % 65536) >>> 8) &&& 0xFF)) h with
  | .error e => .error e
  | .ok (r1, h1) =>
    match self.transfer env wf ((data % 65536) &&& 0xFF) h1 with
    | .error e => .error e
    | .ok (r2, h2) => .ok (((r1 <<< 8) ||| (r2 &&& 0xFF)) % 65536, h2)

/-- The loop `do { ... --length; } while (!minc && length > 0);` of `dmaSend`. -/
def SPIClass.dmaSend_loop (env : Env) (wf : Nat) (GPDMACfg : GPDMA_Channel_CFG_Type)
    (minc : Bool) : Nat → Nat → List Call → Except Halt (List Call)
  | 0, _, _ => .error .fuel
  | fuel + 1, length, h =>
    let h1 := h ++ [Call.GPDMA_Setup GPDMACfg, Call.GPDMA_ChannelCmd 0 .ENABLE]
    match waitDma env wf h1 with
    | .error e => .error e
    | .ok h2 =>
      let h3 := h2 ++ [Call.GPDMA_ClearIntPending .GPDMA_STATCLR_INTTC 0,
        Call.GPDMA_ClearIntPending .GPDMA_STATCLR_INTERR 0, Call.GPDMA_ChannelCmd 0 .DISABLE]
      let length := (length + 65535) % 65536
      if !minc && decide (length > 0) then SPIClass.dmaSend_loop env wf GPDMACfg minc fuel length h3
      else .ok h3

/-- The channel record `dmaSend` builds; `buf` is the address of the buffer. -/
def SPIClass.dmaCfg (P : Platform) (self : SPIClass) (buf : Nat) (length : Nat) (minc : Bool) :
    GPDMA_Channel_CFG_Type :=
  { ChannelNum := 0
    SrcMemAddr := buf % 2 ^ 32
    DstMemAddr := 0
    TransferSize := if minc then length % 65536 else 1
    TransferWidth :=
      if self.cur.dataSize = P.DATA_SIZE_16BIT then .GPDMA_WIDTH_HALFWORD else .GPDMA_WIDTH_BYTE
    TransferTypeM2P := true
    SrcConn := 0
    DstConn := if self.cur.spi_d = .LPC_SSP0 then .GPDMA_CONN_SSP0_Tx else .GPDMA_CONN_SSP1_Tx
    DMALLI := 0 }

/-- The method `dmaSend`. -/
def SPIClass.dmaSend (env : Env) (wf : Nat) (P : Platform) (fuel : Nat) (self : SPIClass)
    (buf : Nat) (length : Nat) (minc : Bool) (h : List Call) : Except Halt (List Call) :=
  let GPDMACfg := self.dmaCfg P buf length minc
  let h1 := h ++ [Call.SSP_DMACmd_TX self.cur.spi_d .ENABLE]
  match SPIClass.dmaSend_loop env wf GPDMACfg minc fuel (length % 65536) h1 with
  | .error e => .error e
  | .ok h2 =>
    match waitSpiTxEnd env wf self.cur.spi_d h2 with
    | .error e => .error e
    | .ok h3 => .ok (h3 ++ [Call.SSP_DMACmd_TX self.cur.spi_d .DISABLE])

/-- The loop `for (uint16_t i = ...; i < len; i++) buf[i] = transfer(0xFF);`
of `read(uint8_t*, uint32_t)`, from the counter value `i`; `buf` is the
contents of the destination buffer. -/
def SPIClass.read_loop (env : Env) (wf : Nat) (self : SPIClass) (len : Nat) :
    Nat → Nat → (Nat → Nat) × List Call → Except Halt ((Nat → Nat) × List Call)
  | 0, _, _ => .error .fuel
  | fuel + 1, i, (buf, h) =>
    if i < len then
      match self.transfer env wf 0xFF h with
      | .error e => .error e
      | .ok (r, h1) =>
        SPIClass.read_loop env wf self len fuel ((i + 1) % 65536) (Function.update buf i r, h1)
    else .ok (buf, h)

/-- The method `read(uint8_t *buf, uint32_t len)`. -/
def SPIClass.read (env : Env) (wf : Nat) (fuel : Nat) (self : SPIClass) (buf : Nat → Nat)
    (len : Nat) (h : List Call) : Except Halt ((Nat → Nat) × List Call) :=
  SPIClass.read_loop env wf self (len % 2 ^ 32) fuel 0 (buf, h)

/-- The mode table as the specification words it: mode 0 is first edge / high,
mode 1 second edge / high, mode 2 first edge / low, mode 3 second edge / low. -/
def specModeTable : Nat → Option (SSP_CPHA × SSP_CPOL)
  | 0 => some (.SSP_CPHA_FIRST, .SSP_CPOL_HI)
  | 1 => some (.SSP_CPHA_SECOND, .SSP_CPOL_HI)
  | 2 => some (.SSP_CPHA_FIRST, .SSP_CPOL_LO)
  | 3 => some (.SSP_CPHA_SECOND, .SSP_CPOL_LO)
  | _ => none

/-- An object to evaluate the model on: two units, unit 1 active, both records
in data mode 0 with 8-bit data. -/
def sampleSPI : SPIClass where
  _settings := fun i =>
    { spi_d := if i = 0 then .LPC_SSP0 else .LPC_SSP1
      clock := 4000000, bitOrder := 1, dataMode := 0, dataSize := 7 }
  _currentSetting := 0

/-- A buffer to evaluate the model on: byte `i` is `i mod 256`. -/
def sampleBuf : Nat → Nat := fun i => i % 256

/-- The history `h1` extends `h` by status polls only. -/
def OnlyPolls (h h1 : List Call) : Prop :=
  ∃ l, h1 = h ++ l ∧ ∀ c ∈ l, c.isPoll = true

/-- The calls of one hardware byte transfer of the procedural driver, polls left out. -/
def doioCalls (spi : LPC_SSP_TypeDef) (b : Nat) : List Call :=
  [Call.SSP_SendData spi b, Call.SSP_ReceiveData spi]

/-- The calls of one `SPIClass::transfer`, polls left out. -/
def transferCalls (spi : LPC_SSP_TypeDef) (b : Nat) : List Call :=
  [Call.SSP_ReceiveData spi, Call.SSP_SendData spi b, Call.SSP_ReceiveData spi]

/-- The calls of one DMA operation of `dmaSend`, polls left out: set up and
enable the channel, then clear both flags and disable the channel. -/
def dmaOperation (cfg : GPDMA_Channel_CFG_Type) : List Call :=
  [Call.GPDMA_Setup cfg, Call.GPDMA_ChannelCmd 0 .ENABLE,
   Call.GPDMA_ClearIntPending .GPDMA_STATCLR_INTTC 0,
   Call.GPDMA_ClearIntPending .GPDMA_STATCLR_INTERR 0,
   Call.GPDMA_ChannelCmd 0 .DISABLE]

/-- The list `l` repeated `n` times. -/
def times : Nat → List Call → List Call
  | 0, _ => []
  | n + 1, l => l ++ times n l

/-- The number of times the body of the `do ... while` loop of `dmaSend` runs
for a 16-bit `length`: once when `minc` is set; otherwise `length` times, and
65536 times when `length` is 0, since the body runs before `--length` wraps
to 65535. -/
def dmaCount (length : Nat) (minc : Bool) : Nat :=
  if minc then 1 else if length = 0 then 65536 else length

/-! ## Bytes and words -/

theorem and_255 (b : Nat) : b &&& 255 = b % 256 := by
  have := Nat.and_pow_two_sub_one_eq_mod b 8
  simpa using this

theorem word_of_bytes (data : Nat) (hd : data < 65536) :
    (((data >>> 8) &&& 0xFF) <<< 8 ||| (data &&& 0xFF)) = data := by
  rw [and_255, and_255, Nat.shiftRight_eq_div_pow, Nat.shiftLeft_eq]
  have h3 : data % 256 < 2 ^ 8 := by omega
  have := Nat.mul_add_lt_is_or h3 (data / 2 ^ 8 % 256)
  rw [Nat.mul_comm, ← this]; omega

theorem word_of_bytes_lt (r1 r2 : Nat) (h1 : r1 < 256) (h2 : r2 < 256) :
    ((r1 <<< 8) ||| (r2 &&& 0xFF)) % 65536 = r1 <<< 8 ||| r2 := by
  rw [and_255, Nat.mod_eq_of_lt h2, Nat.shiftLeft_eq]
  have h3 : r2 < 2 ^ 8 := by omega
  have := Nat.mul_add_lt_is_or h3 r1
  rw [Nat.mul_comm, ← this]; omega

/-! ## What the busy-wait loops add to the history -/

theorem OnlyPolls.trans {h h1 h2 : List Call} (a : OnlyPolls h h1) (b : OnlyPolls h1 h2) :
    OnlyPolls h h2 := by
  obtain ⟨l, rfl, hl⟩ := a
  obtain ⟨m, rfl, hm⟩ := b
  refine ⟨l ++ m, by simp, ?_⟩
  intro c hc
  rcases List.mem_append.mp hc with hc | hc
  · exact hl c hc
  · exact hm c hc

theorem OnlyPolls.driven_eq {h h1 : List Call} (a : OnlyPolls h h1) : driven h1 = driven h := by
  obtain ⟨l, rfl, hl⟩ := a
  unfold driven
  rw [List.filter_append]
  have : l.filter (fun c => !c.isPoll) = [] := by
    rw [List.filter_eq_nil_iff]
    intro c hc
    simp [hl c hc]
  rw [this, List.append_nil]

theorem waitNotBusy_polls (env : Env) (spi : LPC_SSP_TypeDef) (n : Nat) (h h1 : List Call)
    (hw : waitNotBusy env spi n h = .ok h1) : OnlyPolls h h1 := by
  induction n generalizing h with
  | zero => simp [waitNotBusy] at hw
  | succ n ih =>
    simp only [waitNotBusy] at hw
    have step : OnlyPolls h (h ++ [Call.SSP_GetStatus spi .SSP_STAT_BUSY]) :=
      ⟨_, rfl, by simp [Call.isPoll]⟩
    split at hw
    · exact step.trans (ih _ hw)
    · cases hw
      exact step

theorem waitTxEmpty_polls (env : Env) (spi : LPC_SSP_TypeDef) (n : Nat) (h h1 : List Call)
    (hw : waitTxEmpty env spi n h = .ok h1) : OnlyPolls h h1 := by
  induction n generalizing h with
  | zero => simp [waitTxEmpty] at hw
  | succ n ih =>
    simp only [waitTxEmpty] at hw
    have step : OnlyPolls h (h ++ [Call.SSP_GetStatus spi .SSP_STAT_TXFIFO_EMPTY]) :=
      ⟨_, rfl, by simp [Call.isPoll]⟩
    split at hw
    · exact step.trans (ih _ hw)
    · cases hw
      exact step

theorem waitDma_polls (env : Env) (n : Nat) (h h1 : List Call)
    (hw : waitDma env n h = .ok h1) : OnlyPolls h h1 := by
  induction n generalizing h with
  | zero => simp [waitDma] at hw
  | succ n ih =>
    simp only [waitDma] at hw
    have step1 : OnlyPolls h (h ++ [Call.GPDMA_IntGetStatus .GPDMA_STAT_INTTC 0]) :=
      ⟨_, rfl, by simp [Call.isPoll]⟩
    have step2 : OnlyPolls (h ++ [Call.GPDMA_IntGetStatus .GPDMA_STAT_INTTC 0])
        (h ++ [Call.GPDMA_IntGetStatus .GPDMA_STAT_INTTC 0]
          ++ [Call.GPDMA_IntGetStatus .GPDMA_STAT_INTERR 0]) :=
      ⟨_, rfl, by simp [Call.isPoll]⟩
    split at hw
    · cases hw
      exact step1
    · split at hw
      · cases hw
        exact step1.trans step2
      · exact (step1.trans step2).trans (ih _ hw)

theorem waitSpiTxEnd_ok (env : Env) (wf : Nat) (hresp : Responsive env wf)
    (spi : LPC_SSP_TypeDef) (h : List Call) :
    ∃ h1, waitSpiTxEnd env wf spi h = .ok h1 ∧ OnlyPolls h h1 := by
  obtain ⟨h1, e1⟩ := hresp.txEmpty spi h
  obtain ⟨h2, e2⟩ := hresp.busy spi h1
  refine ⟨h2, ?_, (waitTxEmpty_polls _ _ _ _ _ e1).trans (waitNotBusy_polls _ _ _ _ _ e2)⟩
  simp only [waitSpiTxEnd, e1, e2]

theorem driven_append (h l : List Call) : driven (h ++ l) = driven h ++ driven l := by
  simp [driven]

theorem sentData_append (h l : List Call) : sentData (h ++ l) = sentData h ++ sentData l := by
  simp [sentData]

theorem dmaSetups_append (h l : List Call) :
    dmaSetups (h ++ l) = dmaSetups h ++ dmaSetups l := by
  simp [dmaSetups]

theorem sentData_driven (h : List Call) : sentData (driven h) = sentData h := by
  induction h with
  | nil => rfl
  | cons c cs ih =>
    cases c <;> simp_all [driven, sentData, Call.isPoll, List.filter_cons, List.filterMap_cons]

theorem dmaSetups_driven (h : List Call) : dmaSetups (driven h) = dmaSetups h := by
  induction h with
  | nil => rfl
  | cons c cs ih =>
    cases c <;> simp_all [driven, dmaSetups, Call.isPoll, List.filter_cons, List.filterMap_cons]

theorem loopbackEnv_responsive : Responsive loopbackEnv 1 where
  busy := fun spi h =>
    ⟨h ++ [Call.SSP_GetStatus spi .SSP_STAT_BUSY], by simp [waitNotBusy, loopbackEnv]⟩
  txEmpty := fun spi h =>
    ⟨h ++ [Call.SSP_GetStatus spi .SSP_STAT_TXFIFO_EMPTY], by simp [waitTxEmpty, loopbackEnv]⟩
  dma := fun h =>
    ⟨h ++ [Call.GPDMA_IntGetStatus .GPDMA_STAT_INTTC 0], by simp [waitDma, loopbackEnv]⟩

/-! ## Settings, mode table and clock table -/

/-- C1: for every 8-bit speed index `r`, the hardware `spiInit r` makes exactly
one platform call, `SSP_Init` on the driver's peripheral, whose `ClockRate` is
the entry `min r 6` of the table 8333333, 4166667, 2083333, 1000000, 500000,
250000, 125000; for `r` above 6 that is 125000. -/
theorem spiInit_clock_rate (P : Platform) (r : Nat) (h : List Call) (hr : r < 256) :
    ∃ cfg, spiInit P r h = h ++ [Call.SSP_Init P.LPC_SSPn cfg] ∧
      cfg.ClockRate
        = [8333333, 4166667, 2083333, 1000000, 500000, 250000, 125000].getD (min r 6) 0 ∧
      cfg.ClockRate = (if 6 < r then 125000 else cfg.ClockRate) := by
  refine ⟨_, rfl, ?_, ?_⟩
  · have h6 : _MIN (r % 256) 6 = min r 6 := by
      unfold _MIN
      rw [Nat.mod_eq_of_lt hr]
      split <;> omega
    simp only [h6, Marlin_speed]
  · split
    · rename_i h6
      have h7 : _MIN (r % 256) 6 = 6 := by
        unfold _MIN
        rw [Nat.mod_eq_of_lt hr]
        split <;> omega
      simp only [h7, Marlin_speed]
      rfl
    · rfl

/-- C1, at speed index 200 on the sample platform. -/
theorem spiInit_clock_rate_witness :
    (200 : Nat) < 256 ∧
    ∃ cfg, spiInit samplePlatform 200 [] = [] ++ [Call.SSP_Init samplePlatform.LPC_SSPn cfg] ∧
      cfg.ClockRate
        = [8333333, 4166667, 2083333, 1000000, 500000, 250000, 125000].getD (min 200 6) 0 ∧
      cfg.ClockRate = (if 6 < 200 then 125000 else cfg.ClockRate) :=
  ⟨by decide, spiInit_clock_rate samplePlatform 200 [] (by decide)⟩

/-- Setter calls never move `_currentSetting`. -/
theorem runSetters_currentSetting (calls : List Setter) (self : SPIClass) :
    (runSetters self calls)._currentSetting = self._currentSetting := by
  induction calls generalizing self with
  | nil => rfl
  | cons c cs ih =>
    show (runSetters (Setter.run self c) cs)._currentSetting = _
    rw [ih]
    cases c <;> rfl

/-- Setter calls leave every record other than the active one as it was. -/
theorem runSetters_other (calls : List Setter) (self : SPIClass) (j : Fin 2)
    (hj : j ≠ self._currentSetting) :
    (runSetters self calls)._settings j = self._settings j := by
  induction calls generalizing self with
  | nil => rfl
  | cons c cs ih =>
    show (runSetters (Setter.run self c) cs)._settings j = _
    have hc : (Setter.run self c)._currentSetting = self._currentSetting := by
      cases c <;> rfl
    rw [ih _ (by rw [hc]; exact hj)]
    cases c <;>
      simp [Setter.run, SPIClass.setClock, SPIClass.setBitOrder, SPIClass.setDataMode,
        SPIClass.setDataSize, SPIClass.setCur, Function.update_noteq hj]

/-- C6: with two units, `setModule(2)` succeeds and after any sequence of calls
of `setClock`, `setBitOrder`, `setDataMode` and `setDataSize` the record of
unit 1 is the one it was; likewise after `setModule(1)` the record of unit 2
is untouched. -/
theorem setters_isolated_across_units (self : SPIClass) (calls : List Setter) :
    (self.setModule 2).map (fun s => (runSetters s calls)._settings 0)
        = some (self._settings 0) ∧
    (self.setModule 1).map (fun s => (runSetters s calls)._settings 1)
        = some (self._settings 1) := by
  constructor
  · simp only [SPIClass.setModule]
    rw [dif_pos (by decide)]
    simp only [Option.map_some']
    rw [runSetters_other]
    simp [Fin.ext_iff]
  · simp only [SPIClass.setModule]
    rw [dif_pos (by decide)]
    simp only [Option.map_some']
    rw [runSetters_other]
    simp [Fin.ext_iff]

/-- C10: when the active record's data mode is one of 0 to 3, `begin` selects
the peripheral clock divider, calls `SSP_Init` on the record's peripheral with
the record's clock as `ClockRate`, its data size as `Databit` and the table's
CPHA/CPOL pair for the mode, then enables the peripheral; the object is
returned as it was. -/
theorem begin_applies_active_settings (P : Platform) (self : SPIClass) (h : List Call)
    (pair : SSP_CPHA × SSP_CPOL) (hm : specModeTable self.cur.dataMode = some pair) :
    self.begin P h =
      (self, h ++ [Call.CLKPWR_SetPCLKDiv_CCLK_DIV_2
            (if self.cur.spi_d = .LPC_SSP0 then .CLKPWR_PCLKSEL_SSP0 else .CLKPWR_PCLKSEL_SSP1),
          Call.SSP_Init self.cur.spi_d
            { P.SSP_ConfigStructInit with
              ClockRate := self.cur.clock, Databit := self.cur.dataSize,
              CPHA := pair.1, CPOL := pair.2 },
          Call.SSP_Cmd self.cur.spi_d .ENABLE]) := by
  generalize hmode : self.cur.dataMode = m at hm
  have key : m = 0 ∨ m = 1 ∨ m = 2 ∨ m = 3 := by
    match m, hm with
    | 0, _ => simp
    | 1, _ => simp
    | 2, _ => simp
    | 3, _ => simp
    | n + 4, hm => simp [specModeTable] at hm
  rcases key with rfl | rfl | rfl | rfl <;>
    · simp only [specModeTable, Option.some.injEq] at hm
      subst hm
      simp [SPIClass.begin, SPIClass.updateSettings, hmode, SPI_MODE0, SPI_MODE1, SPI_MODE2,
        SPI_MODE3]

/-- C10, on the sample object (data mode 0). -/
theorem begin_applies_active_settings_witness :
    specModeTable sampleSPI.cur.dataMode = some (.SSP_CPHA_FIRST, .SSP_CPOL_HI) ∧
    sampleSPI.begin samplePlatform [] =
      (sampleSPI, [] ++ [Call.CLKPWR_SetPCLKDiv_CCLK_DIV_2
            (if sampleSPI.cur.spi_d = .LPC_SSP0 then .CLKPWR_PCLKSEL_SSP0
              else .CLKPWR_PCLKSEL_SSP1),
          Call.SSP_Init sampleSPI.cur.spi_d
            { samplePlatform.SSP_ConfigStructInit with
              ClockRate := sampleSPI.cur.clock, Databit := sampleSPI.cur.dataSize,
              CPHA := SSP_CPHA.SSP_CPHA_FIRST, CPOL := SSP_CPOL.SSP_CPOL_HI },
          Call.SSP_Cmd sampleSPI.cur.spi_d .ENABLE]) :=
  ⟨rfl, begin_applies_active_settings samplePlatform sampleSPI []
    (.SSP_CPHA_FIRST, .SSP_CPOL_HI) rfl⟩

/-- C2: on the sample object, whose active record is in data mode 0,
`beginTransaction` with data mode 3 initialises the peripheral with the pair of
mode 0 (first edge, high), not the pair of mode 3 (second edge, low). -/
theorem beginTransaction_mode3_programs_stale_mode :
    (sampleSPI.beginTransaction samplePlatform
        { bitOrder := 1, dataMode := 3, dataSize := 7 } []).2 =
      [Call.CLKPWR_SetPCLKDiv_CCLK_DIV_2 .CLKPWR_PCLKSEL_SSP0,
       Call.SSP_Init .LPC_SSP0
        { Databit := 7, CPHA := .SSP_CPHA_FIRST, CPOL := .SSP_CPOL_HI, Mode := 0,
          FrameFormat := 0, ClockRate := 4000000 },
       Call.SSP_Cmd .LPC_SSP0 .ENABLE] ∧
    specModeTable 3 = some (.SSP_CPHA_SECOND, .SSP_CPOL_LO) := by
  constructor
  · decide
  · rfl

/-- Whatever the object and the argument, `beginTransaction` changes the active
record in its bit order and data size only; the data mode of the argument is
stored nowhere. -/
theorem beginTransaction_record (P : Platform) (self : SPIClass) (cfg : TransactionCfg)
    (h : List Call) :
    (self.beginTransaction P cfg h).1.cur =
      { self.cur with bitOrder := cfg.bitOrder % 256, dataSize := cfg.dataSize % 2 ^ 32 } := by
  simp [SPIClass.beginTransaction, SPIClass.begin, SPIClass.setBitOrder, SPIClass.setDataMode,
    SPIClass.setDataSize, SPIClass.setCur, SPIClass.cur]

/-- C7: on the sample object, whose active record is in data mode 0, after
`beginTransaction` with bit order 0, data mode 3 and data size 15 the active
record has the new bit order and data size and its old clock and peripheral,
but its data mode is still 0. -/
theorem beginTransaction_keeps_old_dataMode :
    (sampleSPI.beginTransaction samplePlatform
        { bitOrder := 0, dataMode := 3, dataSize := 15 } []).1.cur =
      { spi_d := .LPC_SSP0, clock := 4000000, bitOrder := 0, dataMode := 0, dataSize := 15 } := by
  decide

/-! ## Block send -/

theorem sampleBuf_lt : ∀ i, i < 512 → sampleBuf i < 256 :=
  fun i _ => Nat.mod_lt i (by decide)

theorem doio_ok (env : Env) (wf : Nat) (hresp : Responsive env wf) (P : Platform) (b : Nat)
    (hb : b < 256) (h : List Call) :
    ∃ r h1, doio env wf P b h = .ok (r, h1) ∧
      driven h1 = driven h ++ doioCalls P.LPC_SSPn b := by
  obtain ⟨h2, e2⟩ := hresp.busy P.LPC_SSPn (h ++ [Call.SSP_SendData P.LPC_SSPn b])
  have hp := (waitNotBusy_polls _ _ _ _ _ e2).driven_eq
  have hbyte : (b % 256) &&& 0x00FF = b := by
    rw [and_255]; omega
  refine ⟨((env (h2 ++ [Call.SSP_ReceiveData P.LPC_SSPn]) % 65536) &&& 0x00FF) % 256,
    h2 ++ [Call.SSP_ReceiveData P.LPC_SSPn], ?_, ?_⟩
  · simp only [doio, hbyte, e2]
  · rw [driven_append, hp, driven_append, List.append_assoc]
    rfl

theorem spiTransfer_ok (env : Env) (wf : Nat) (hresp : Responsive env wf) (P : Platform)
    (b : Nat) (hb : b < 256) (h : List Call) :
    ∃ r h1, spiTransfer env wf P b h = .ok (r, h1) ∧
      driven h1 = driven h ++ doioCalls P.LPC_SSPn b := by
  unfold spiTransfer
  rw [Nat.mod_eq_of_lt hb]
  exact doio_ok env wf hresp P b hb h

theorem spiSendBlock_loop_ok (env : Env) (wf : Nat) (hresp : Responsive env wf) (P : Platform)
    (buf : Nat → Nat) (hbuf : ∀ i, i < 512 → buf i < 256) (n : Nat) :
    ∀ (i fuel : Nat) (h : List Call), i + n = 512 → n < fuel →
      ∃ h1, spiSendBlock_loop env wf P buf fuel i h = .ok h1 ∧
        driven h1 = driven h ++ ((List.range' i n).map buf).flatMap (doioCalls P.LPC_SSPn) := by
  induction n with
  | zero =>
    intro i fuel h hi hf
    obtain ⟨f, rfl⟩ : ∃ f, fuel = f + 1 := ⟨fuel - 1, by omega⟩
    refine ⟨h, ?_, by simp⟩
    simp only [spiSendBlock_loop]
    rw [if_neg (by omega)]
  | succ n ih =>
    intro i fuel h hi hf
    obtain ⟨f, rfl⟩ : ∃ f, fuel = f + 1 := ⟨fuel - 1, by omega⟩
    obtain ⟨r, h1, e1, d1⟩ := spiTransfer_ok env wf hresp P (buf i) (hbuf i (by omega)) h
    obtain ⟨h2, e2, d2⟩ := ih (i + 1) f h1 (by omega) (by omega)
    refine ⟨h2, ?_, ?_⟩
    · simp only [spiSendBlock_loop]
      rw [if_pos (by omega), e1]
      simp only
      rw [Nat.mod_eq_of_lt (by omega), e2]
    · rw [d2, d1, List.range'_succ, List.map_cons, List.flatMap_cons, List.append_assoc]

theorem sw_spiSendBlock_loop_ok (env : Env) (P : Platform) (speed : Nat)
    (buf : Nat → Nat) (hbuf : ∀ i, i < 512 → buf i < 256) (n : Nat) :
    ∀ (i fuel : Nat) (h : List Call), i + n = 512 → n < fuel →
      sw_spiSendBlock_loop env P speed buf fuel i h =
        .ok (h ++ ((List.range' i n).map buf).map
          (fun b => Call.swSpiTransfer b speed P.SCK_PIN P.MISO_PIN P.MOSI_PIN)) := by
  induction n with
  | zero =>
    intro i fuel h hi hf
    obtain ⟨f, rfl⟩ : ∃ f, fuel = f + 1 := ⟨fuel - 1, by omega⟩
    simp only [sw_spiSendBlock_loop]
    rw [if_neg (by omega)]
    simp
  | succ n ih =>
    intro i fuel h hi hf
    obtain ⟨f, rfl⟩ : ∃ f, fuel = f + 1 := ⟨fuel - 1, by omega⟩
    simp only [sw_spiSendBlock_loop]
    rw [if_pos (by omega), Nat.mod_eq_of_lt (by omega), ih (i + 1) f _ (by omega) (by omega)]
    simp only [sw_spiTransfer, Nat.mod_eq_of_lt (hbuf i (by omega)), List.range'_succ,
      List.map_cons, List.append_assoc, List.singleton_append]

theorem sentData_doioCalls (spi : LPC_SSP_TypeDef) (l : List Nat) :
    sentData (l.flatMap (doioCalls spi)) = l := by
  induction l with
  | nil => rfl
  | cons b bs ih =>
    rw [List.flatMap_cons, sentData_append, ih]
    rfl

/-- C4: for every token byte and every buffer of 512 bytes, `spiSendBlock`
returns after 513 byte transfers that send the token and then `buf[0]` to
`buf[511]` in that order.  The hardware variant (on hardware that answers its
busy-waits) makes, polls aside, one `SSP_SendData` / `SSP_ReceiveData` pair per
byte; the software variant makes one `swSpiTransfer` call per byte and no
other call. -/
theorem spiSendBlock_token_then_512_bytes (env : Env) (wf : Nat) (P : Platform)
    (SPI_speed fuel token : Nat) (buf : Nat → Nat) (h : List Call)
    (hresp : Responsive env wf) (ht : token < 256) (hbuf : ∀ i, i < 512 → buf i < 256)
    (hf : 513 ≤ fuel) :
    (∃ h1, spiSendBlock env wf P fuel token buf h = .ok h1 ∧
      driven h1 = driven h ++
        (token :: (List.range 512).map buf).flatMap (doioCalls P.LPC_SSPn) ∧
      sentData h1 = sentData h ++ token :: (List.range 512).map buf) ∧
    sw_spiSendBlock env P SPI_speed fuel token buf h =
      .ok (h ++ (token :: (List.range 512).map buf).map
        (fun b => Call.swSpiTransfer b SPI_speed P.SCK_PIN P.MISO_PIN P.MOSI_PIN)) ∧
    (token :: (List.range 512).map buf).length = 513 := by
  refine ⟨?_, ?_, by simp⟩
  · obtain ⟨r, h1, e1, d1⟩ := spiTransfer_ok env wf hresp P token ht h
    obtain ⟨h2, e2, d2⟩ :=
      spiSendBlock_loop_ok env wf hresp P buf hbuf 512 0 fuel h1 (by omega) (by omega)
    have hd : driven h2 = driven h ++
        (token :: (List.range 512).map buf).flatMap (doioCalls P.LPC_SSPn) := by
      rw [d2, d1, List.range_eq_range', List.flatMap_cons, List.append_assoc]
    refine ⟨h2, ?_, hd, ?_⟩
    · simp only [spiSendBlock]
      rw [Nat.mod_eq_of_lt ht, e1]
      exact e2
    · rw [← sentData_driven h2, hd, ← sentData_driven h, sentData_append, sentData_doioCalls]
  · simp only [sw_spiSendBlock]
    rw [sw_spiSendBlock_loop_ok env P SPI_speed buf hbuf 512 0 fuel _ (by omega) (by omega)]
    simp only [sw_spiTransfer, Nat.mod_mod, Nat.mod_eq_of_lt ht, List.range_eq_range',
      List.map_cons, List.append_assoc, List.singleton_append]

/-- C4, on the loopback platform with token 254 and the sample buffer. -/
theorem spiSendBlock_token_then_512_bytes_witness :
    Responsive loopbackEnv 1 ∧ (254 : Nat) < 256 ∧ (∀ i, i < 512 → sampleBuf i < 256) ∧
    (513 : Nat) ≤ 513 ∧
    ((∃ h1, spiSendBlock loopbackEnv 1 samplePlatform 513 254 sampleBuf [] = .ok h1 ∧
      driven h1 = driven [] ++
        (254 :: (List.range 512).map sampleBuf).flatMap (doioCalls samplePlatform.LPC_SSPn) ∧
      sentData h1 = sentData [] ++ 254 :: (List.range 512).map sampleBuf) ∧
    sw_spiSendBlock loopbackEnv samplePlatform 0 513 254 sampleBuf [] =
      .ok ([] ++ (254 :: (List.range 512).map sampleBuf).map
        (fun b => Call.swSpiTransfer b 0 samplePlatform.SCK_PIN samplePlatform.MISO_PIN
          samplePlatform.MOSI_PIN)) ∧
    (254 :: (List.range 512).map sampleBuf).length = 513) :=
  ⟨loopbackEnv_responsive, by decide, sampleBuf_lt, Nat.le_refl 513,
    spiSendBlock_token_then_512_bytes loopbackEnv 1 samplePlatform 0 513 254 sampleBuf []
      loopbackEnv_responsive (by decide) sampleBuf_lt (Nat.le_refl 513)⟩

/-! ## `transfer` and `transfer16` -/

theorem transfer_ok (env : Env) (wf : Nat) (hresp : Responsive env wf) (self : SPIClass)
    (b : Nat) (hb : b < 65536) (h : List Call) :
    ∃ r h1, self.transfer env wf b h = .ok (r, h1) ∧ r < 256 ∧
      driven h1 = driven h ++ transferCalls self.cur.spi_d b := by
  obtain ⟨h3, e3, p3⟩ := waitSpiTxEnd_ok env wf hresp self.cur.spi_d
    (h ++ [Call.SSP_ReceiveData self.cur.spi_d] ++ [Call.SSP_SendData self.cur.spi_d b])
  refine ⟨(env (h3 ++ [Call.SSP_ReceiveData self.cur.spi_d]) % 65536) % 256,
    h3 ++ [Call.SSP_ReceiveData self.cur.spi_d], ?_, Nat.mod_lt _ (by decide), ?_⟩
  · simp only [SPIClass.transfer, Nat.mod_eq_of_lt hb, e3]
  · rw [driven_append, p3.driven_eq, driven_append, driven_append, List.append_assoc,
      List.append_assoc]
    rfl

theorem sentData_transferCalls (spi : LPC_SSP_TypeDef) (b : Nat) :
    sentData (transferCalls spi b) = [b] := rfl

/-- C5: for every 16-bit `data`, on hardware that answers its busy-waits,
`transfer16 data` returns after exactly two transfers, the first sending the
high byte `(data >> 8) & 0xFF` and the second the low byte `data & 0xFF`; its
result is `(r1 << 8) | r2` for the bytes `r1`, `r2` the two transfers return,
so it is `data` whenever each transfer returns the byte it sent. -/
theorem transfer16_high_byte_then_low_byte (env : Env) (wf : Nat) (self : SPIClass)
    (data : Nat) (h : List Call) (hresp : Responsive env wf) (hd : data < 65536) :
    ∃ r1 h1 r2 h2,
      self.transfer env wf ((data >>> 8) &&& 0xFF) h = .ok (r1, h1) ∧
      self.transfer env wf (data &&& 0xFF) h1 = .ok (r2, h2) ∧
      self.transfer16 env wf data h = .ok ((r1 <<< 8) ||| r2, h2) ∧
      driven h2 = driven h ++ transferCalls self.cur.spi_d ((data >>> 8) &&& 0xFF)
        ++ transferCalls self.cur.spi_d (data &&& 0xFF) ∧
      sentData h2 = sentData h ++ [(data >>> 8) &&& 0xFF, data &&& 0xFF] ∧
      (r1 = (data >>> 8) &&& 0xFF ∧ r2 = data &&& 0xFF → (r1 <<< 8) ||| r2 = data) := by
  have hhi : (data >>> 8) &&& 0xFF < 65536 := by
    rw [and_255]; omega
  have hlo : data &&& 0xFF < 65536 := by
    rw [and_255]; omega
  obtain ⟨r1, h1, e1, b1, d1⟩ := transfer_ok env wf hresp self _ hhi h
  obtain ⟨r2, h2, e2, b2, d2⟩ := transfer_ok env wf hresp self _ hlo h1
  have hd2 : driven h2 = driven h ++ transferCalls self.cur.spi_d ((data >>> 8) &&& 0xFF)
      ++ transferCalls self.cur.spi_d (data &&& 0xFF) := by
    rw [d2, d1]
  refine ⟨r1, h1, r2, h2, e1, e2, ?_, hd2, ?_, ?_⟩
  · simp only [SPIClass.transfer16, Nat.mod_eq_of_lt hd, e1, e2, word_of_bytes_lt r1 r2 b1 b2]
  · rw [← sentData_driven h2, hd2, sentData_append, sentData_append, sentData_driven,
      sentData_transferCalls, sentData_transferCalls, List.append_assoc]
    rfl
  · rintro ⟨rfl, rfl⟩
    exact word_of_bytes data hd

/-- C5, on the loopback platform with the word `0xABCD`. -/
theorem transfer16_high_byte_then_low_byte_witness :
    Responsive loopbackEnv 1 ∧ (0xABCD : Nat) < 65536 ∧
    ∃ r1 h1 r2 h2,
      sampleSPI.transfer loopbackEnv 1 ((0xABCD >>> 8) &&& 0xFF) [] = .ok (r1, h1) ∧
      sampleSPI.transfer loopbackEnv 1 (0xABCD &&& 0xFF) h1 = .ok (r2, h2) ∧
      sampleSPI.transfer16 loopbackEnv 1 0xABCD [] = .ok ((r1 <<< 8) ||| r2, h2) ∧
      driven h2 = driven [] ++ transferCalls sampleSPI.cur.spi_d ((0xABCD >>> 8) &&& 0xFF)
        ++ transferCalls sampleSPI.cur.spi_d (0xABCD &&& 0xFF) ∧
      sentData h2 = sentData [] ++ [(0xABCD >>> 8) &&& 0xFF, 0xABCD &&& 0xFF] ∧
      (r1 = (0xABCD >>> 8) &&& 0xFF ∧ r2 = 0xABCD &&& 0xFF → (r1 <<< 8) ||| r2 = 0xABCD) :=
  ⟨loopbackEnv_responsive, by decide,
    transfer16_high_byte_then_low_byte loopbackEnv 1 sampleSPI 0xABCD []
      loopbackEnv_responsive (by decide)⟩

/-! ## DMA burst send -/

theorem times_succ (n : Nat) (l : List Call) : times (n + 1) l = l ++ times n l := rfl

theorem dmaSend_loop_step (env : Env) (wf : Nat) (hresp : Responsive env wf)
    (cfg : GPDMA_Channel_CFG_Type) (minc : Bool) (fuel length : Nat) (h : List Call) :
    ∃ h3, driven h3 = driven h ++ dmaOperation cfg ∧
      SPIClass.dmaSend_loop env wf cfg minc (fuel + 1) length h =
        (if !minc && decide ((length + 65535) % 65536 > 0) then
          SPIClass.dmaSend_loop env wf cfg minc fuel ((length + 65535) % 65536) h3
         else .ok h3) := by
  obtain ⟨h2, e2⟩ := hresp.dma (h ++ [Call.GPDMA_Setup cfg, Call.GPDMA_ChannelCmd 0 .ENABLE])
  have p2 := (waitDma_polls _ _ _ _ e2).driven_eq
  refine ⟨h2 ++ [Call.GPDMA_ClearIntPending .GPDMA_STATCLR_INTTC 0,
        Call.GPDMA_ClearIntPending .GPDMA_STATCLR_INTERR 0, Call.GPDMA_ChannelCmd 0 .DISABLE],
    ?_, ?_⟩
  · rw [driven_append, p2, driven_append, List.append_assoc]
    rfl
  · simp only [SPIClass.dmaSend_loop, e2]

theorem dmaSend_loop_repeat (env : Env) (wf : Nat) (hresp : Responsive env wf)
    (cfg : GPDMA_Channel_CFG_Type) (k : Nat) :
    ∀ (fuel : Nat) (h : List Call), k + 1 < 65536 → k + 1 ≤ fuel →
      ∃ h1, SPIClass.dmaSend_loop env wf cfg false fuel (k + 1) h = .ok h1 ∧
        driven h1 = driven h ++ times (k + 1) (dmaOperation cfg) := by
  induction k with
  | zero =>
    intro fuel h _ hf
    obtain ⟨f, rfl⟩ : ∃ f, fuel = f + 1 := ⟨fuel - 1, by omega⟩
    obtain ⟨h3, d3, e3⟩ := dmaSend_loop_step env wf hresp cfg false f (0 + 1) h
    refine ⟨h3, ?_, ?_⟩
    · rw [e3]
      simp
    · rw [d3]
      simp [times]
  | succ k ih =>
    intro fuel h hk hf
    obtain ⟨f, rfl⟩ : ∃ f, fuel = f + 1 := ⟨fuel - 1, by omega⟩
    obtain ⟨h3, d3, e3⟩ := dmaSend_loop_step env wf hresp cfg false f (k + 1 + 1) h
    obtain ⟨h1, e1, d1⟩ := ih f h3 (by omega) (by omega)
    have hlen : (k + 1 + 1 + 65535) % 65536 = k + 1 := by omega
    refine ⟨h1, ?_, ?_⟩
    · rw [e3, hlen]
      simpa using e1
    · rw [d1, d3, List.append_assoc, times_succ (k + 1)]

theorem dmaSend_loop_ok (env : Env) (wf : Nat) (hresp : Responsive env wf)
    (cfg : GPDMA_Channel_CFG_Type) (minc : Bool) (fuel length : Nat) (h : List Call)
    (hl : length < 65536) (hf : dmaCount length minc ≤ fuel) :
    ∃ h1, SPIClass.dmaSend_loop env wf cfg minc fuel length h = .ok h1 ∧
      driven h1 = driven h ++ times (dmaCount length minc) (dmaOperation cfg) := by
  cases minc with
  | true =>
    simp only [dmaCount, if_true] at hf ⊢
    obtain ⟨f, rfl⟩ : ∃ f, fuel = f + 1 := ⟨fuel - 1, by omega⟩
    obtain ⟨h3, d3, e3⟩ := dmaSend_loop_step env wf hresp cfg true f length h
    refine ⟨h3, ?_, ?_⟩
    · rw [e3]
      simp
    · rw [d3]
      simp [times]
  | false =>
    rcases Nat.eq_zero_or_pos length with h0 | hpos
    · subst h0
      simp only [dmaCount, if_true, Bool.false_eq_true, if_false] at hf ⊢
      obtain ⟨f, rfl⟩ : ∃ f, fuel = f + 1 := ⟨fuel - 1, by omega⟩
      obtain ⟨h3, d3, e3⟩ := dmaSend_loop_step env wf hresp cfg false f 0 h
      obtain ⟨h1, e1, d1⟩ := dmaSend_loop_repeat env wf hresp cfg 65534 f h3 (by omega) (by omega)
      have hcnt : (65536 : Nat) = 65534 + 1 + 1 := rfl
      refine ⟨h1, ?_, ?_⟩
      · rw [e3]
        simpa using e1
      · rw [d1, d3, List.append_assoc, hcnt, times_succ (65534 + 1)]
    · obtain ⟨k, rfl⟩ : ∃ k, length = k + 1 := ⟨length - 1, by omega⟩
      have hc : dmaCount (k + 1) false = k + 1 := by simp [dmaCount]
      rw [hc] at hf ⊢
      exact dmaSend_loop_repeat env wf hresp cfg k fuel h hl hf

theorem dmaSend_ok (env : Env) (wf : Nat) (hresp : Responsive env wf) (P : Platform)
    (fuel : Nat) (self : SPIClass) (buf length : Nat) (minc : Bool) (h : List Call)
    (hl : length < 65536) (hf : dmaCount length minc ≤ fuel) :
    ∃ h1, self.dmaSend env wf P fuel buf length minc h = .ok h1 ∧
      driven h1 = driven h ++ [Call.SSP_DMACmd_TX self.cur.spi_d .ENABLE]
        ++ times (dmaCount length minc) (dmaOperation (self.dmaCfg P buf length minc))
        ++ [Call.SSP_DMACmd_TX self.cur.spi_d .DISABLE] := by
  obtain ⟨h2, e2, d2⟩ := dmaSend_loop_ok env wf hresp (self.dmaCfg P buf length minc) minc fuel
    length (h ++ [Call.SSP_DMACmd_TX self.cur.spi_d .ENABLE]) hl hf
  obtain ⟨h3, e3, p3⟩ := waitSpiTxEnd_ok env wf hresp self.cur.spi_d h2
  refine ⟨h3 ++ [Call.SSP_DMACmd_TX self.cur.spi_d .DISABLE], ?_, ?_⟩
  · simp only [SPIClass.dmaSend, Nat.mod_eq_of_lt hl, e2, e3]
  · rw [driven_append, p3.driven_eq, d2, driven_append]
    rfl

theorem dmaSetups_times (cfg : GPDMA_Channel_CFG_Type) (n : Nat) :
    dmaSetups (times n (dmaOperation cfg)) = List.replicate n cfg := by
  induction n with
  | zero => rfl
  | succ n ih =>
    rw [times_succ, dmaSetups_append, ih, List.replicate_succ]
    rfl

/-- C3: on hardware that answers its busy-waits, `dmaSend(buf, 0, false)`
returns after 65536 DMA operations, not after none: the body of the
`do ... while` loop runs once before `--length` takes the 16-bit length from 0
to 65535.  Each operation is a channel setup with `TransferSize` 1 from the
address `buf`, followed by the clearing of both flags and the disabling of the
channel before the next setup. -/
theorem dmaSend_zero_length_repeats_65536_times (env : Env) (wf : Nat) (P : Platform)
    (fuel : Nat) (self : SPIClass) (buf : Nat) (h : List Call)
    (hresp : Responsive env wf) (hb : buf < 2 ^ 32) (hf : 65536 ≤ fuel) :
    ∃ h1, self.dmaSend env wf P fuel buf 0 false h = .ok h1 ∧
      driven h1 = driven h ++ [Call.SSP_DMACmd_TX self.cur.spi_d .ENABLE]
        ++ times 65536 (dmaOperation (self.dmaCfg P buf 0 false))
        ++ [Call.SSP_DMACmd_TX self.cur.spi_d .DISABLE] ∧
      (self.dmaCfg P buf 0 false).TransferSize = 1 ∧
      (self.dmaCfg P buf 0 false).SrcMemAddr = buf ∧
      (dmaSetups h1).length = (dmaSetups h).length + 65536 := by
  obtain ⟨h1, e1, d1⟩ := dmaSend_ok env wf hresp P fuel self buf 0 false h (by decide)
    (by simpa [dmaCount] using hf)
  have hc : dmaCount 0 false = 65536 := rfl
  rw [hc] at d1
  refine ⟨h1, e1, d1, rfl, ?_, ?_⟩
  · simp only [SPIClass.dmaCfg]
    exact Nat.mod_eq_of_lt hb
  · rw [← dmaSetups_driven h1, d1, dmaSetups_append, dmaSetups_append, dmaSetups_append,
      dmaSetups_driven, dmaSetups_times]
    have e1 : dmaSetups [Call.SSP_DMACmd_TX self.cur.spi_d .ENABLE] = [] := rfl
    have e2 : dmaSetups [Call.SSP_DMACmd_TX self.cur.spi_d .DISABLE] = [] := rfl
    rw [e1, e2]
    simp only [List.append_nil, List.length_append, List.length_replicate]

/-- C3, on the loopback platform and the sample object. -/
theorem dmaSend_zero_length_repeats_65536_times_witness :
    Responsive loopbackEnv 1 ∧ (4096 : Nat) < 2 ^ 32 ∧ (65536 : Nat) ≤ 65536 ∧
    ∃ h1, sampleSPI.dmaSend loopbackEnv 1 samplePlatform 65536 4096 0 false [] = .ok h1 ∧
      driven h1 = driven [] ++ [Call.SSP_DMACmd_TX sampleSPI.cur.spi_d .ENABLE]
        ++ times 65536 (dmaOperation (sampleSPI.dmaCfg samplePlatform 4096 0 false))
        ++ [Call.SSP_DMACmd_TX sampleSPI.cur.spi_d .DISABLE] ∧
      (sampleSPI.dmaCfg samplePlatform 4096 0 false).TransferSize = 1 ∧
      (sampleSPI.dmaCfg samplePlatform 4096 0 false).SrcMemAddr = 4096 ∧
      (dmaSetups h1).length = (dmaSetups ([] : List Call)).length + 65536 :=
  ⟨loopbackEnv_responsive, by decide, Nat.le_refl 65536,
    dmaSend_zero_length_repeats_65536_times loopbackEnv 1 samplePlatform 65536 sampleSPI 4096 []
      loopbackEnv_responsive (by decide) (Nat.le_refl 65536)⟩

theorem dmaCount_le (length : Nat) (minc : Bool) (hl : length < 65536) :
    dmaCount length minc ≤ 65536 := by
  unfold dmaCount
  split
  · omega
  · split <;> omega

theorem dmaSetups_of_dmaSend (h h1 : List Call) (spi : LPC_SSP_TypeDef) (n : Nat)
    (cfg : GPDMA_Channel_CFG_Type)
    (d1 : driven h1 = driven h ++ [Call.SSP_DMACmd_TX spi .ENABLE]
        ++ times n (dmaOperation cfg) ++ [Call.SSP_DMACmd_TX spi .DISABLE]) :
    dmaSetups h1 = dmaSetups h ++ List.replicate n cfg := by
  have e1 : dmaSetups [Call.SSP_DMACmd_TX spi .ENABLE] = [] := rfl
  have e2 : dmaSetups [Call.SSP_DMACmd_TX spi .DISABLE] = [] := rfl
  rw [← dmaSetups_driven h1, d1, dmaSetups_append, dmaSetups_append, dmaSetups_append,
    dmaSetups_driven, dmaSetups_times, e1, e2, List.append_nil, List.append_nil]

/-- C9: for every 16-bit length `N`, on hardware that answers its busy-waits,
`dmaSend(buf, N, true)` returns after exactly one DMA operation, whose channel
record has `TransferSize` `N` and source address `buf`; and for either value of
`minc` every channel record handed to `GPDMA_Setup` has the half-word width
when the active record's data size is `DATA_SIZE_16BIT` and the byte width
otherwise. -/
theorem dmaSend_minc_single_operation_and_width (env : Env) (wf : Nat) (P : Platform)
    (fuel : Nat) (self : SPIClass) (buf N : Nat) (h : List Call)
    (hresp : Responsive env wf) (hN : N < 65536) (hb : buf < 2 ^ 32) (hf : 65536 ≤ fuel) :
    (∃ h1, self.dmaSend env wf P fuel buf N true h = .ok h1 ∧
      driven h1 = driven h ++ [Call.SSP_DMACmd_TX self.cur.spi_d .ENABLE]
        ++ dmaOperation (self.dmaCfg P buf N true)
        ++ [Call.SSP_DMACmd_TX self.cur.spi_d .DISABLE] ∧
      dmaSetups h1 = dmaSetups h ++ [self.dmaCfg P buf N true] ∧
      (self.dmaCfg P buf N true).TransferSize = N ∧
      (self.dmaCfg P buf N true).SrcMemAddr = buf) ∧
    (∀ minc : Bool, ∃ h1 n, self.dmaSend env wf P fuel buf N minc h = .ok h1 ∧
      dmaSetups h1 = dmaSetups h ++ List.replicate n (self.dmaCfg P buf N minc) ∧
      (self.dmaCfg P buf N minc).TransferWidth =
        (if self.cur.dataSize = P.DATA_SIZE_16BIT then GPDMA_WIDTH.GPDMA_WIDTH_HALFWORD
         else GPDMA_WIDTH.GPDMA_WIDTH_BYTE)) := by
  constructor
  · obtain ⟨h1, e1, d1⟩ := dmaSend_ok env wf hresp P fuel self buf N true h hN
      (Nat.le_trans (dmaCount_le N true hN) hf)
    have hc : dmaCount N true = 1 := rfl
    rw [hc] at d1
    have ds := dmaSetups_of_dmaSend h h1 _ 1 _ d1
    have ht : times 1 (dmaOperation (self.dmaCfg P buf N true))
        = dmaOperation (self.dmaCfg P buf N true) := by
      rw [times_succ]
      exact List.append_nil _
    rw [ht] at d1
    refine ⟨h1, e1, d1, ds, ?_, ?_⟩
    · simp only [SPIClass.dmaCfg, if_true]
      exact Nat.mod_eq_of_lt hN
    · simp only [SPIClass.dmaCfg]
      exact Nat.mod_eq_of_lt hb
  · intro minc
    obtain ⟨h1, e1, d1⟩ := dmaSend_ok env wf hresp P fuel self buf N minc h hN
      (Nat.le_trans (dmaCount_le N minc hN) hf)
    exact ⟨h1, dmaCount N minc, e1, dmaSetups_of_dmaSend h h1 _ _ _ d1, rfl⟩

/-- C9, on the loopback platform and the sample object with 100 elements at address 4096. -/
theorem dmaSend_minc_single_operation_and_width_witness :
    Responsive loopbackEnv 1 ∧ (100 : Nat) < 65536 ∧ (4096 : Nat) < 2 ^ 32 ∧
    (65536 : Nat) ≤ 65536 ∧
    ((∃ h1, sampleSPI.dmaSend loopbackEnv 1 samplePlatform 65536 4096 100 true [] = .ok h1 ∧
      driven h1 = driven [] ++ [Call.SSP_DMACmd_TX sampleSPI.cur.spi_d .ENABLE]
        ++ dmaOperation (sampleSPI.dmaCfg samplePlatform 4096 100 true)
        ++ [Call.SSP_DMACmd_TX sampleSPI.cur.spi_d .DISABLE] ∧
      dmaSetups h1 = dmaSetups [] ++ [sampleSPI.dmaCfg samplePlatform 4096 100 true] ∧
      (sampleSPI.dmaCfg samplePlatform 4096 100 true).TransferSize = 100 ∧
      (sampleSPI.dmaCfg samplePlatform 4096 100 true).SrcMemAddr = 4096) ∧
    (∀ minc : Bool, ∃ h1 n,
      sampleSPI.dmaSend loopbackEnv 1 samplePlatform 65536 4096 100 minc [] = .ok h1 ∧
      dmaSetups h1 = dmaSetups [] ++ List.replicate n (sampleSPI.dmaCfg samplePlatform 4096 100 minc) ∧
      (sampleSPI.dmaCfg samplePlatform 4096 100 minc).TransferWidth =
        (if sampleSPI.cur.dataSize = samplePlatform.DATA_SIZE_16BIT
         then GPDMA_WIDTH.GPDMA_WIDTH_HALFWORD else GPDMA_WIDTH.GPDMA_WIDTH_BYTE))) :=
  ⟨loopbackEnv_responsive, by decide, by decide, Nat.le_refl 65536,
    dmaSend_minc_single_operation_and_width loopbackEnv 1 samplePlatform 65536 sampleSPI 4096 100
      [] loopbackEnv_responsive (by decide) (by decide) (Nat.le_refl 65536)⟩

/-! ## Buffered read -/

theorem read_loop_never_returns (env : Env) (wf : Nat) (hresp : Responsive env wf)
    (self : SPIClass) (len : Nat) (hlen : 65536 ≤ len) (fuel : Nat) :
    ∀ (i : Nat) (st : (Nat → Nat) × List Call), i < 65536 →
      SPIClass.read_loop env wf self len fuel i st = .error .fuel := by
  induction fuel with
  | zero =>
    intro i st _
    rfl
  | succ f ih =>
    intro i st hi
    obtain ⟨buf, h⟩ := st
    obtain ⟨r, h1, e1, _, _⟩ := transfer_ok env wf hresp self 0xFF (by decide) h
    simp only [SPIClass.read_loop]
    rw [if_pos (by omega), e1]
    exact ih _ _ (Nat.mod_lt _ (by decide))

theorem read_loop_ok (env : Env) (wf : Nat) (hresp : Responsive env wf)
    (self : SPIClass) (len : Nat) (hlen : len < 65536) (n : Nat) :
    ∀ (i fuel : Nat) (st : (Nat → Nat) × List Call), i + n = len → n < fuel →
      ∃ st1, SPIClass.read_loop env wf self len fuel i st = .ok st1 ∧
        driven st1.2 = driven st.2 ++ times n (transferCalls self.cur.spi_d 0xFF) := by
  induction n with
  | zero =>
    intro i fuel st hi hf
    obtain ⟨f, rfl⟩ : ∃ f, fuel = f + 1 := ⟨fuel - 1, by omega⟩
    obtain ⟨buf, h⟩ := st
    refine ⟨(buf, h), ?_, by simp [times]⟩
    simp only [SPIClass.read_loop]
    rw [if_neg (by omega)]
  | succ n ih =>
    intro i fuel st hi hf
    obtain ⟨f, rfl⟩ : ∃ f, fuel = f + 1 := ⟨fuel - 1, by omega⟩
    obtain ⟨buf, h⟩ := st
    obtain ⟨r, h1, e1, _, d1⟩ := transfer_ok env wf hresp self 0xFF (by decide) h
    obtain ⟨st1, e2, d2⟩ := ih (i + 1) f (Function.update buf i r, h1) (by omega) (by omega)
    refine ⟨st1, ?_, ?_⟩
    · simp only [SPIClass.read_loop]
      rw [if_pos (by omega), e1]
      simp only
      rw [Nat.mod_eq_of_lt (by omega), e2]
    · rw [d2]
      simp only
      rw [d1, List.append_assoc, times_succ]

/-- On hardware that answers its busy-waits, `read(buf, len)` with `len` below
65536 returns after exactly `len` transfers, each sending `0xFF`. -/
theorem read_short_ok (env : Env) (wf : Nat) (hresp : Responsive env wf) (self : SPIClass)
    (buf : Nat → Nat) (len fuel : Nat) (h : List Call) (hlen : len < 65536) (hf : len < fuel) :
    ∃ st1, self.read env wf fuel buf len h = .ok st1 ∧
      driven st1.2 = driven h ++ times len (transferCalls self.cur.spi_d 0xFF) := by
  have h32 : len % 2 ^ 32 = len := Nat.mod_eq_of_lt (by omega)
  unfold SPIClass.read
  rw [h32]
  exact read_loop_ok env wf hresp self len hlen len 0 fuel (buf, h) (by omega) hf

/-- C8: on hardware that answers its busy-waits, `read(buf, len)` with a 32-bit
`len` of 65536 or more never returns: whatever the fuel, the loop is still
running when it is used up, because the 16-bit counter wraps to 0 before it
can reach `len`. -/
theorem read_long_never_returns (env : Env) (wf : Nat) (self : SPIClass) (buf : Nat → Nat)
    (len : Nat) (h : List Call) (hresp : Responsive env wf) (hlo : 65536 ≤ len)
    (hhi : len < 2 ^ 32) :
    ∀ fuel, self.read env wf fuel buf len h = .error .fuel := by
  intro fuel
  unfold SPIClass.read
  rw [Nat.mod_eq_of_lt hhi]
  exact read_loop_never_returns env wf hresp self len hlo fuel 0 (buf, h) (by decide)

/-- C8, on the loopback platform with `len = 65536`. -/
theorem read_long_never_returns_witness :
    Responsive loopbackEnv 1 ∧ (65536 : Nat) ≤ 65536 ∧ (65536 : Nat) < 2 ^ 32 ∧
    ∀ fuel, sampleSPI.read loopbackEnv 1 fuel sampleBuf 65536 [] = .error .fuel :=
  ⟨loopbackEnv_responsive, Nat.le_refl 65536, by decide,
    read_long_never_returns loopbackEnv 1 sampleSPI sampleBuf 65536 [] loopbackEnv_responsive
      (Nat.le_refl 65536) (by decide)⟩

end HAL_SPI
